import Mathlib

/-!
Shallow embedding of the libapparatus JSON-RPC 2.0 message layer
(src/libapparatus/jsonrpc2.py) and of the resilient websocket channel's
send/listen control logic (src/libapparatus/ws_client.py), together with
theorems settling the frozen claims about the natural-language spec.

Python values exchanged by the message layer are modelled by the `Json`
inductive below; Python `dict`s become association lists (first occurrence
of a key wins on lookup, matching `dict.get`/`in`), Python `None` becomes
`Json.null`, and the `int`/`str`/`bool` scalar types map to the
corresponding constructors.  Python's `bool` is a subclass of `int`, so
`isinstance(x, (int, str))` accepts booleans; the embedding mirrors that
in `isIdType`.
-/

/-- Structured values handled by the message layer: the image of Python
objects under JSON semantics (`None`, `bool`, `int`, `str`, `list`,
`dict`).  Floats never occur in the claims and are omitted. -/
inductive Json where
  | null : Json
  | bool : Bool → Json
  | num : Int → Json
  | str : String → Json
  | arr : List Json → Json
  | obj : List (String × Json) → Json

/-- Association-list lookup modelling Python `dict` access: the first
binding of the key wins (a real `dict` has at most one). -/
def jlookup : List (String × Json) → String → Option Json
  | [], _ => none
  | (k2, v) :: rest, k => if k2 = k then some v else jlookup rest k

namespace JSONRPC2

/-- Test modelling Python `isinstance(message, dict)`. -/
def isDict : Json → Bool
  | .obj _ => true
  | _ => false

/-- Field access modelling `message.get(key)` on a dict (and `None` on
anything that is not a dict, which the callers below guard against). -/
def getField (m : Json) (k : String) : Option Json :=
  match m with
  | .obj fs => jlookup fs k
  | _ => none

/-- Test modelling `message.get("jsonrpc") != JSONRPC2.JSONRPC_VERSION`
(negated): the `"jsonrpc"` field is present and equals the string "2.0". -/
def jsonrpcOk (m : Json) : Bool :=
  match getField m "jsonrpc" with
  | some (.str s) => s = "2.0"
  | _ => false

/-- Test modelling `isinstance(x, (int, str))` for the `id` field; Python
`bool` is a subclass of `int`, so booleans pass. -/
def isIdType : Json → Bool
  | .num _ => true
  | .str _ => true
  | .bool _ => true
  | _ => false

/-- Test modelling `isinstance(x, (dict, list))` for the `params` field. -/
def isParamsType : Json → Bool
  | .obj _ => true
  | .arr _ => true
  | _ => false

/-- Test that the `method` field is present and a string. -/
def methodOk (m : Json) : Bool :=
  match getField m "method" with
  | some (.str _) => true
  | _ => false

/-- Test that the `id` field is present with an `int`/`str` (or `bool`)
value. -/
def idOk (m : Json) : Bool :=
  match getField m "id" with
  | some v => isIdType v
  | none => false

/-- Embedding of `JSONRPC2.check_message`: a dict whose `"jsonrpc"` field
equals the literal string "2.0". -/
def check_message (m : Json) : Bool :=
  isDict m && jsonrpcOk m

/-- Embedding of `JSONRPC2.check_request`: dict, version "2.0", string
`method`, `id` present of type int/str. -/
def check_request (m : Json) : Bool :=
  isDict m && jsonrpcOk m && methodOk m && idOk m

/-- Embedding of `JSONRPC2.check_response`: dict, version "2.0", at least
one of `result`/`error` present, `id` present of type int/str. -/
def check_response (m : Json) : Bool :=
  isDict m && jsonrpcOk m
    && ((getField m "result").isSome || (getField m "error").isSome)
    && idOk m

/-- Embedding of `JSONRPC2.check_notification`: dict, version "2.0",
string `method`, no `id` field, and `params`, when present, a dict or a
list. -/
def check_notification (m : Json) : Bool :=
  isDict m && jsonrpcOk m && methodOk m && (getField m "id").isNone
    && (match getField m "params" with
        | none => true
        | some p => isParamsType p)

/-- Possible return values of `JSONRPC2.get_message_type`, which in Python
returns one of the heterogeneous values `False`, `"REQUEST"`,
`"RESPONSE"`, `"NOTIFICATION"`, or (by falling off the end) `None`. -/
inductive GetTypeResult where
  | retFalse : GetTypeResult
  | TYPE_REQUEST : GetTypeResult
  | TYPE_RESPONSE : GetTypeResult
  | TYPE_NOTIFICATION : GetTypeResult
  | retNone : GetTypeResult
deriving DecidableEq

/-- Embedding of `JSONRPC2.get_message_type`: the inline envelope test
(`not isinstance(..., dict)` returning `False`, then `"jsonrpc" not in
message or message["jsonrpc"] != VERSION` returning `False`), then the
three shape checks in order, returning the first match, and `None` when
none of them match. -/
def get_message_type (m : Json) : GetTypeResult :=
  if !isDict m then .retFalse
  else if !jsonrpcOk m then .retFalse
  else if check_request m then .TYPE_REQUEST
  else if check_response m then .TYPE_RESPONSE
  else if check_notification m then .TYPE_NOTIFICATION
  else .retNone

/-- The method registry: the integer class constants of `JSONRPC2`
(lines 13 to 36 of jsonrpc2.py), mapping a symbolic method name to a small
positive integer code. -/
def methodRegistry : List (String × Int) :=
  [("REGISTER", 1), ("UNREGISTER", 2), ("PING", 3),
   ("GET_STATUS", 5), ("GET_NODE_STATUS", 6), ("GET_USER_STATUS", 7),
   ("GET_CONFIG", 10), ("SET_CONFIG", 11),
   ("INIT_CAMERA", 20), ("GET_CAMERA_STATUS", 21),
   ("GET_CAMERA_CONFIG", 22), ("SET_CAMERA_CONFIG", 23),
   ("GET_CAMERA_FRAME", 24), ("START_CAMERA_STREAM", 25),
   ("STOP_CAMERA_STREAM", 26),
   ("INIT_MOTOR", 30), ("GET_MOTOR_STATUS", 31), ("GET_MOTOR_CONFIG", 32),
   ("SET_MOTOR_CONFIG", 33), ("START_MOTOR", 34), ("STOP_MOTOR", 35)]

/-- Registry lookup over the method-name constants. -/
def registryLookup : List (String × Int) → String → Option Int
  | [], _ => none
  | (k2, v) :: rest, k => if k2 = k then some v else registryLookup rest k

/-- Embedding of `getattr(JSONRPC2, name)` restricted to the class's
constant (data) attributes: the integer method registry plus the string
constants `JSONRPC_VERSION`, `TYPE_REQUEST`, `TYPE_RESPONSE` and
`TYPE_NOTIFICATION`.  In Python, `getattr` would additionally find the
static methods and dunder attributes of the class; none of the claims
depend on those, but note that the attribute namespace is already strictly
larger than the method registry. -/
def classAttr (name : String) : Option Json :=
  match registryLookup methodRegistry name with
  | some n => some (.num n)
  | none =>
    if name = "JSONRPC_VERSION" then some (.str "2.0")
    else if name = "TYPE_REQUEST" then some (.str "REQUEST")
    else if name = "TYPE_RESPONSE" then some (.str "RESPONSE")
    else if name = "TYPE_NOTIFICATION" then some (.str "NOTIFICATION")
    else none

/-- Request dict built by `make_request` once the `id` value is known:
insertion order `jsonrpc`, `method`, `id`, `params`, with `params`
defaulting to the empty dict. -/
def mkReq (method : String) (idv : Json) (params : Option Json) : Json :=
  .obj [("jsonrpc", .str "2.0"), ("method", .str method), ("id", idv),
        ("params", params.getD (.obj []))]

/-- Embedding of `JSONRPC2.make_request`: `id if id is not None else
getattr(JSONRPC2, method)`; `getattr` on an unknown attribute raises
`AttributeError`, modelled by `Except.error ()`.  `params` defaults to the
empty dict. -/
def make_request (method : String) (id : Option Json)
    (params : Option Json) : Except Unit Json :=
  match id with
  | some i => .ok (mkReq method i params)
  | none =>
    match classAttr method with
    | some v => .ok (mkReq method v params)
    | none => .error ()

/-- Embedding of `JSONRPC2.make_notification`: `jsonrpc` and `method`
always; the `params` key added only when the caller supplied params. -/
def make_notification (method : String) (params : Option Json) : Json :=
  .obj ([("jsonrpc", .str "2.0"), ("method", .str method)] ++
    (match params with
     | some p => [("params", p)]
     | none => []))

/-- Embedding of `JSONRPC2.make_response`: always includes the `result`
key (value `None`, i.e. `Json.null`, when the Python default applies; the
caller passes the Python argument explicitly here). -/
def make_response (id : Json) (result : Json) : Json :=
  .obj [("jsonrpc", .str "2.0"), ("id", id), ("result", result)]

/-- Embedding of `JSONRPC2.make_error`: nested `error` object holding
`code` and `message`, then the `id` key (Python default `None` is passed
as `Json.null`); the `data` key is appended inside `error` only when
supplied. -/
def make_error (code : Json) (message : Json) (id : Json)
    (data : Option Json) : Json :=
  .obj [("jsonrpc", .str "2.0"),
        ("error", .obj ([("code", code), ("message", message)] ++
          (match data with
           | some d => [("data", d)]
           | none => []))),
        ("id", id)]

/-- Inputs to `JSONRPC2.parse_message`, discriminated the way the Python
body does with `isinstance`: a text payload, an already-decoded dict, or
anything else (bytes, a list, `None`, ...), for which neither branch of
the `try` body runs. -/
inductive PyVal where
  | pstr : String → PyVal
  | pdict : List (String × Json) → PyVal
  | pother : String → PyVal

/-- Outcomes of `JSONRPC2.parse_message`: the parsed dict is returned;
`None` is returned after a caught decode exception; the `assert` raises
`AssertionError` when the decoded payload lacks a `"jsonrpc"` member;
`"jsonrpc" in message` raises `TypeError` on a non-iterable decoded
value; and on a non-str non-dict argument the local `message` is never
assigned, so the `assert` line raises an unhandled unbound-local error. -/
inductive ParseResult where
  | ok : Json → ParseResult
  | retNone : ParseResult
  | assertFail : ParseResult
  | typeError : ParseResult
  | unboundLocal : ParseResult

/-- Evaluation of the Python membership test `"jsonrpc" in message` on the
decoded value: key membership on dicts, element membership on lists,
substring test on strings, `TypeError` on anything else. -/
def containsJsonrpc : Json → Except Unit Bool
  | .obj fs => .ok (jlookup fs "jsonrpc").isSome
  | .arr xs =>
    .ok (xs.any fun j =>
      match j with
      | .str s => s = "jsonrpc"
      | _ => false)
  | .str s => .ok (decide ((s.splitOn "jsonrpc").length > 1))
  | _ => .error ()

/-- Embedding of `JSONRPC2.parse_message`.  The decode step
`json.loads` belongs to the Python standard library (an external
collaborator), so it is a parameter: `loads` returns `none` exactly when
`json.loads` would raise on that text.  The `try` block covers only the
decode; the `assert "jsonrpc" in message` runs outside it. -/
def parse_message (loads : String → Option Json) : PyVal → ParseResult
  | .pstr s =>
    match loads s.trim with
    | none => .retNone
    | some j =>
      match containsJsonrpc j with
      | .error _ => .typeError
      | .ok true => .ok j
      | .ok false => .assertFail
  | .pdict fs =>
    if (jlookup fs "jsonrpc").isSome then .ok (.obj fs) else .assertFail
  | .pother _ => .unboundLocal

/-- Escape map of `json.dumps` for the characters the default encoder
always escapes in the claims' alphabet: backslash and double quote. -/
def escChar (c : Char) : String :=
  if c = Char.ofNat 92 then String.mk [Char.ofNat 92, Char.ofNat 92]
  else if c = Char.ofNat 34 then String.mk [Char.ofNat 92, Char.ofNat 34]
  else String.singleton c

/-- String-body escaping for the serializer. -/
def escapeStr (s : String) : String :=
  String.join (s.toList.map escChar)

/-- Serialization of a JSON string literal with surrounding quotes. -/
def dumpStr (s : String) : String :=
  String.mk [Char.ofNat 34] ++ escapeStr s ++ String.mk [Char.ofNat 34]

mutual

/-- Embedding of `json.dumps` with the default separators (", " and
": "), the serializer `WSClient.send` and the round-trip claims use. -/
def dumps : Json → String
  | .null => "null"
  | .bool true => "true"
  | .bool false => "false"
  | .num n => toString n
  | .str s => dumpStr s
  | .arr xs => "[" ++ dumpsElems xs ++ "]"
  | .obj fs => "\x7b" ++ dumpsFields fs ++ "\x7d"

/-- Comma-separated serialization of array elements. -/
def dumpsElems : List Json → String
  | [] => ""
  | [x] => dumps x
  | x :: y :: rest => dumps x ++ ", " ++ dumpsElems (y :: rest)

/-- Comma-separated serialization of object members. -/
def dumpsFields : List (String × Json) → String
  | [] => ""
  | [(k, v)] => dumpStr k ++ ": " ++ dumps v
  | (k, v) :: y :: rest => dumpStr k ++ ": " ++ dumps v ++ ", " ++ dumpsFields (y :: rest)

end

end JSONRPC2

namespace WSClient

/-- Embedding of the outbound-message validation at the top of
`WSClient.send`: `isinstance(message, dict)` and the truthiness-plus-
equality test on `message.get("jsonrpc")`, which together accept exactly
the dicts whose `"jsonrpc"` field is the string "2.0"; anything else
raises `ValueError`. -/
def valid_send_arg (m : Json) : Bool :=
  match m with
  | .obj fs =>
    match jlookup fs "jsonrpc" with
    | some (.str s) => s = "2.0"
    | _ => false
  | _ => false

/-- One observation of the channel's shared state as read by an iteration
of the wait loop in `WSClient.send`: whether `self.ws` exists and its
state is OPEN, and whether `self._stop` is set. -/
structure Obs where
  connected : Bool
  stop : Bool
deriving DecidableEq

/-- Outcomes of `WSClient.send`.  `sent` is the normal path through
`await self.ws.send(...)`; `droppedOnStop` is the early `return` taken
when `self._stop` is observed while waiting (the message is never
written); `exhausted` marks a trace that ends with the loop still
waiting (the call has not returned); `invalidMessage` is the
`ValueError` raised on a malformed argument. -/
inductive SendOutcome where
  | invalidMessage : SendOutcome
  | sent : SendOutcome
  | droppedOnStop : SendOutcome
  | exhausted : SendOutcome
deriving DecidableEq

/-- Embedding of the wait loop of `WSClient.send` over a trace of
observations of the shared state, one per arrival at the loop head: exit
and write the frame once connected, return without writing if the stop
flag is observed, otherwise reconnect, sleep and re-observe. -/
def sendLoop : List Obs → SendOutcome
  | [] => .exhausted
  | o :: rest =>
    if o.connected then .sent
    else if o.stop then .droppedOnStop
    else sendLoop rest

/-- Embedding of `WSClient.send`: validate the argument, then run the
wait loop until the frame is written or the stop flag is observed. -/
def send (m : Json) (tr : List Obs) : SendOutcome :=
  if valid_send_arg m then sendLoop tr else .invalidMessage

/-- Result of one invocation of the caller-supplied message handler:
normal return or a raised exception. -/
inductive HandlerRes where
  | ok : HandlerRes
  | exc : HandlerRes
deriving DecidableEq

/-- Body of the `try` in `WSClient.listen`: the `async for` over inbound
frames, invoking the handler (when one is registered) on each.  Returns
the frames actually handed to the handler and whether an exception
escaped the loop body (which in Python aborts the iteration). -/
def listenLoop (h : Option (String → HandlerRes)) :
    List String → List String × Bool
  | [] => ([], false)
  | f :: fs =>
    match h with
    | none => listenLoop h fs
    | some hf =>
      match hf f with
      | .ok =>
        match listenLoop h fs with
        | (d, e) => (f :: d, e)
      | .exc => ([f], true)

/-- How `WSClient.listen` returned: the frame stream ended normally, or
the trailing `except Exception` caught an exception (logging it). -/
inductive ListenExit where
  | streamEnd : ListenExit
  | caughtException : ListenExit
deriving DecidableEq

/-- Embedding of `WSClient.listen`: run the frame loop; any exception
escaping it is caught by the `except Exception` clause and logged, so
`listen` always returns.  The delivered-frame list is paired with the
exit kind. -/
def listen (h : Option (String → HandlerRes)) (fs : List String) :
    List String × ListenExit :=
  match listenLoop h fs with
  | (d, false) => (d, .streamEnd)
  | (d, true) => (d, .caughtException)

end WSClient

open JSONRPC2 WSClient

section ClaimTheorems

/-- Claim C7 (confirmed): `make_response(7, ok-object)` yields exactly the
dict with `jsonrpc` "2.0", `id` 7 and the `result` object, and
`make_error(-32601, "Method not found", 7)` yields exactly the dict with
`jsonrpc` "2.0", `id` 7 and an `error` object holding only `code` and
`message` — the `data` key is absent (dict equality is key-set equality;
the insertion order shown is the code's construction order). -/
theorem c7_response_and_error_scenario :
    make_response (Json.num 7) (Json.obj [("ok", Json.bool true)]) =
      Json.obj [("jsonrpc", Json.str "2.0"), ("id", Json.num 7),
        ("result", Json.obj [("ok", Json.bool true)])]
    ∧ make_error (Json.num (-32601)) (Json.str "Method not found")
        (Json.num 7) none =
      Json.obj [("jsonrpc", Json.str "2.0"),
        ("error", Json.obj [("code", Json.num (-32601)),
          ("message", Json.str "Method not found")]),
        ("id", Json.num 7)]
    ∧ getField (Json.obj [("code", Json.num (-32601)),
        ("message", Json.str "Method not found")]) "data" = none :=
  ⟨rfl, rfl, rfl⟩

/-- Claim C10 (confirmed): on any argument that is neither a string nor a
dict, `parse_message` reaches the `assert` line with its local variable
`message` never assigned and raises an unhandled unbound-local error; it
neither returns `None` nor fails with a decode/protocol error. -/
theorem c10_parse_nonstr_nondict (loads : String → Option Json)
    (tag : String) :
    parse_message loads (PyVal.pother tag) = ParseResult.unboundLocal :=
  rfl

/-- Claim C9 (confirmed): every message produced by the four builders —
`make_request` (whenever it succeeds), `make_notification`,
`make_response` and `make_error` — satisfies the envelope check
`check_message`: it is a dict whose `jsonrpc` field is the string
"2.0". -/
theorem c9_builders_well_formed :
    (∀ method id params j, make_request method id params = Except.ok j →
      check_message j = true)
    ∧ (∀ method params, check_message (make_notification method params) = true)
    ∧ (∀ id result, check_message (make_response id result) = true)
    ∧ (∀ code msg id data, check_message (make_error code msg id data) = true) := by
  refine ⟨?_, ?_, ?_, ?_⟩
  · intro method id params j h
    cases id with
    | some i =>
      simp only [make_request] at h
      cases h
      rfl
    | none =>
      simp only [make_request] at h
      cases hc : classAttr method with
      | some v =>
        rw [hc] at h
        cases h
        rfl
      | none =>
        rw [hc] at h
        cases h
  · intro method params
    cases params <;> rfl
  · intro id result
    rfl
  · intro code msg id data
    cases data <;> rfl

/-- Claim C9 witness: `make_request "PING"` with no explicit id succeeds
(registry id 3) and its output passes `check_message`. -/
theorem c9_witness :
    make_request "PING" none none =
      Except.ok (Json.obj [("jsonrpc", Json.str "2.0"),
        ("method", Json.str "PING"), ("id", Json.num 3),
        ("params", Json.obj [])])
    ∧ check_message (Json.obj [("jsonrpc", Json.str "2.0"),
        ("method", Json.str "PING"), ("id", Json.num 3),
        ("params", Json.obj [])]) = true :=
  ⟨rfl, c9_builders_well_formed.1 "PING" none none _ rfl⟩

/-- Claim C4 counterexample: `"JSONRPC_VERSION"` is absent from the
method registry (the name-to-positive-integer mapping), yet
`make_request("JSONRPC_VERSION")` with no explicit id succeeds, because
`getattr(JSONRPC2, method)` finds the class constant and uses its value
"2.0" as the id.  This refutes "fails with UnknownMethod exactly when the
method name is absent from the method registry". -/
theorem c4_counterexample :
    make_request "JSONRPC_VERSION" none none =
      Except.ok (Json.obj [("jsonrpc", Json.str "2.0"),
        ("method", Json.str "JSONRPC_VERSION"), ("id", Json.str "2.0"),
        ("params", Json.obj [])])
    ∧ registryLookup methodRegistry "JSONRPC_VERSION" = none :=
  ⟨rfl, rfl⟩

/-- Claim C4 (corrected): `make_request` without an explicit id fails
(with `AttributeError`) exactly when the method name is not a class
attribute — the method registry plus the other class constants such as
`JSONRPC_VERSION` and the `TYPE_*` strings; with an explicit id it always
succeeds regardless of the attribute namespace; and when `params` is
omitted the built request carries the empty object as `params`. -/
theorem c4_amended (method : String) (params : Option Json) :
    (make_request method none params = Except.error () ↔
      classAttr method = none)
    ∧ (∀ id, make_request method (some id) params =
        Except.ok (mkReq method id params))
    ∧ (∀ idOpt j, make_request method idOpt none = Except.ok j →
        getField j "params" = some (Json.obj [])) := by
  refine ⟨?_, ?_, ?_⟩
  · constructor
    · intro h
      cases hc : classAttr method with
      | some v => simp [make_request, hc] at h
      | none => rfl
    · intro h
      simp [make_request, h]
  · intro id
    rfl
  · intro idOpt j h
    cases idOpt with
    | some i =>
      simp only [make_request] at h
      cases h
      rfl
    | none =>
      simp only [make_request] at h
      cases hc : classAttr method with
      | some v =>
        rw [hc] at h
        cases h
        rfl
      | none =>
        rw [hc] at h
        cases h

/-- Claim C4 witness: a registered method without an explicit id yields a
request whose `params` field is the empty object, and an unknown name
without an explicit id fails. -/
theorem c4_witness :
    getField (Json.obj [("jsonrpc", Json.str "2.0"),
      ("method", Json.str "PING"), ("id", Json.num 3),
      ("params", Json.obj [])]) "params" = some (Json.obj [])
    ∧ make_request "frobnicate" none none = Except.error () :=
  ⟨(c4_amended "PING" none).2.2 none _ rfl,
   ((c4_amended "frobnicate" none).1).mpr rfl⟩

/-- Claim C1 counterexample: `get_message_type` does not return a single
sentinel for both failure cases.  On the well-formed envelope
`\x7b"jsonrpc": "2.0"\x7d`, which matches none of the three shapes, it
falls off the end and returns `None`; on the empty dict, whose envelope
check fails, it returns `False`; and the two sentinels are distinct
values. -/
theorem c1_counterexample :
    get_message_type (Json.obj [("jsonrpc", Json.str "2.0")]) =
      GetTypeResult.retNone
    ∧ check_message (Json.obj [("jsonrpc", Json.str "2.0")]) = true
    ∧ get_message_type (Json.obj []) = GetTypeResult.retFalse
    ∧ decide (GetTypeResult.retNone = GetTypeResult.retFalse) = false :=
  ⟨rfl, rfl, rfl, rfl⟩

/-- Claim C1 (corrected): `get_message_type` evaluates the shape checks
in the order request, response, notification and returns the first match;
when the envelope check fails it returns `False`, and when the envelope
check passes but none of the three shapes match it returns `None` — two
distinct sentinel values (not one), each distinguishable from the three
classifications and neither an error. -/
theorem c1_amended (m : Json) :
    (check_message m = false → get_message_type m = GetTypeResult.retFalse)
    ∧ (check_message m = true → check_request m = true →
        get_message_type m = GetTypeResult.TYPE_REQUEST)
    ∧ (check_message m = true → check_request m = false →
        check_response m = true →
        get_message_type m = GetTypeResult.TYPE_RESPONSE)
    ∧ (check_message m = true → check_request m = false →
        check_response m = false → check_notification m = true →
        get_message_type m = GetTypeResult.TYPE_NOTIFICATION)
    ∧ (check_message m = true → check_request m = false →
        check_response m = false → check_notification m = false →
        get_message_type m = GetTypeResult.retNone)
    ∧ decide (GetTypeResult.retFalse = GetTypeResult.retNone) = false := by
  refine ⟨?_, ?_, ?_, ?_, ?_, rfl⟩
  · intro h
    simp only [check_message, Bool.and_eq_true] at h
    cases hd : isDict m with
    | false => simp [get_message_type, hd]
    | true =>
      cases hj : jsonrpcOk m with
      | false => simp [get_message_type, hd, hj]
      | true => simp [hd, hj] at h
  · intro h hr
    simp only [check_message, Bool.and_eq_true] at h
    simp [get_message_type, h.1, h.2, hr]
  · intro h hr hs
    simp only [check_message, Bool.and_eq_true] at h
    simp [get_message_type, h.1, h.2, hr, hs]
  · intro h hr hs hn
    simp only [check_message, Bool.and_eq_true] at h
    simp [get_message_type, h.1, h.2, hr, hs, hn]
  · intro h hr hs hn
    simp only [check_message, Bool.and_eq_true] at h
    simp [get_message_type, h.1, h.2, hr, hs, hn]

/-- Claim C1 witness: the classification branches of `c1_amended` fire on
concrete messages of each shape. -/
theorem c1_witness :
    get_message_type (Json.obj [("jsonrpc", Json.str "2.0"),
      ("method", Json.str "ping"), ("id", Json.num 3)]) =
      GetTypeResult.TYPE_REQUEST
    ∧ get_message_type (Json.obj [("jsonrpc", Json.str "2.0"),
        ("id", Json.num 3), ("result", Json.null)]) =
      GetTypeResult.TYPE_RESPONSE
    ∧ get_message_type (Json.obj [("jsonrpc", Json.str "2.0"),
        ("method", Json.str "ping")]) =
      GetTypeResult.TYPE_NOTIFICATION
    ∧ get_message_type (Json.str "hi") = GetTypeResult.retFalse :=
  ⟨(c1_amended _).2.1 rfl rfl,
   (c1_amended _).2.2.1 rfl rfl rfl,
   (c1_amended _).2.2.2.1 rfl rfl rfl rfl,
   (c1_amended _).1 rfl⟩

/-- Claim C2 counterexample: the three shape predicates are not mutually
exclusive over well-formed messages, and a request can also be a
response.  The message with `method`, `id` and `result` satisfies both
`check_request` and `check_response`; the bare envelope satisfies the
well-formedness check but none of the three shapes. -/
theorem c2_counterexample :
    check_request (Json.obj [("jsonrpc", Json.str "2.0"),
      ("method", Json.str "ping"), ("id", Json.num 1),
      ("result", Json.null)]) = true
    ∧ check_response (Json.obj [("jsonrpc", Json.str "2.0"),
        ("method", Json.str "ping"), ("id", Json.num 1),
        ("result", Json.null)]) = true
    ∧ check_message (Json.obj [("jsonrpc", Json.str "2.0")]) = true
    ∧ check_request (Json.obj [("jsonrpc", Json.str "2.0")]) = false
    ∧ check_response (Json.obj [("jsonrpc", Json.str "2.0")]) = false
    ∧ check_notification (Json.obj [("jsonrpc", Json.str "2.0")]) = false :=
  ⟨rfl, rfl, rfl, rfl, rfl, rfl⟩

/-- Claim C2 (corrected): a well-formed message need not satisfy exactly
one shape predicate — a request that also carries `result` or `error`
satisfies `check_response` too, and a bare envelope satisfies none.  What
does hold: every message satisfying `check_request` fails
`check_notification`, and fails `check_response` unless it carries a
`result` or `error` field. -/
theorem c2_amended (r : Json) (h : check_request r = true) :
    check_notification r = false
    ∧ (getField r "result" = none → getField r "error" = none →
        check_response r = false) := by
  simp only [check_request, Bool.and_eq_true] at h
  obtain ⟨⟨⟨hd, hj⟩, hm⟩, hid⟩ := h
  constructor
  · have hne : (getField r "id").isNone = false := by
      cases hg : getField r "id" with
      | none => simp [idOk, hg] at hid
      | some v => simp
    simp [check_notification, hne]
  · intro hres herr
    simp [check_response, hres, herr]

/-- Claim C2 witness: a plain request (no `result`/`error`) satisfies
`check_request` and, by `c2_amended`, fails the other two checks. -/
theorem c2_witness :
    check_notification (Json.obj [("jsonrpc", Json.str "2.0"),
      ("method", Json.str "ping"), ("id", Json.num 3)]) = false
    ∧ check_response (Json.obj [("jsonrpc", Json.str "2.0"),
        ("method", Json.str "ping"), ("id", Json.num 3)]) = false :=
  ⟨(c2_amended (Json.obj [("jsonrpc", Json.str "2.0"),
      ("method", Json.str "ping"), ("id", Json.num 3)]) rfl).1,
   (c2_amended (Json.obj [("jsonrpc", Json.str "2.0"),
      ("method", Json.str "ping"), ("id", Json.num 3)]) rfl).2 rfl rfl⟩

/-- Claim C3 counterexample: on syntactically invalid text (`json.loads`
raises, modelled by the decoder returning nothing) `parse_message`
catches the exception, logs it, and returns `None` — a normal return
value — rather than surfacing a `DecodeError` to the caller. -/
theorem c3_counterexample :
    parse_message (fun _ => none) (PyVal.pstr "not json") =
      ParseResult.retNone :=
  rfl

/-- Claim C3 (corrected): on syntactically invalid text `parse_message`
swallows the decode failure and returns `None` (the failure is logged,
not surfaced); on a decoded payload missing the `"jsonrpc"` key it raises
`AssertionError`, which is surfaced to the immediate caller (the `assert`
sits outside the `try`), both for text and for already-decoded dict
input. -/
theorem c3_amended (loads : String → Option Json) (s : String)
    (fs : List (String × Json)) :
    (loads s.trim = none →
      parse_message loads (PyVal.pstr s) = ParseResult.retNone)
    ∧ (loads s.trim = some (Json.obj fs) → jlookup fs "jsonrpc" = none →
        parse_message loads (PyVal.pstr s) = ParseResult.assertFail)
    ∧ (jlookup fs "jsonrpc" = none →
        parse_message loads (PyVal.pdict fs) = ParseResult.assertFail) := by
  refine ⟨?_, ?_, ?_⟩
  · intro h
    simp [parse_message, h]
  · intro h hk
    simp [parse_message, h, containsJsonrpc, hk]
  · intro hk
    simp [parse_message, hk]

/-- Claim C3 witness: both failure branches of `c3_amended` fire on
concrete inputs. -/
theorem c3_witness :
    parse_message (fun _ => none) (PyVal.pstr "oops") = ParseResult.retNone
    ∧ parse_message (fun _ => some (Json.obj [("method", Json.str "m")]))
        (PyVal.pstr "x") = ParseResult.assertFail :=
  ⟨(c3_amended (fun _ => none) "oops" []).1 rfl,
   (c3_amended (fun _ => some (Json.obj [("method", Json.str "m")])) "x"
      [("method", Json.str "m")]).2.1 rfl rfl⟩

/-- Helper: the wait loop of `send` returns `droppedOnStop` only when a
stop flag was observed on the trace. -/
lemma sendLoop_dropped_imp (tr : List Obs) :
    sendLoop tr = SendOutcome.droppedOnStop →
      tr.any (fun o => o.stop) = true := by
  induction tr with
  | nil => intro h; simp [sendLoop] at h
  | cons o rest ih =>
    intro h
    simp only [sendLoop] at h
    by_cases hc : o.connected = true
    · simp [hc] at h
    · simp only [Bool.not_eq_true] at hc
      rw [hc] at h
      simp only [Bool.false_eq_true, if_false] at h
      by_cases hs : o.stop = true
      · simp [List.any_cons, hs]
      · simp only [Bool.not_eq_true] at hs
        rw [hs] at h
        simp only [Bool.false_eq_true, if_false] at h
        simp [List.any_cons, ih h]

/-- Helper: if no stop flag is ever observed and some observation shows
the transport connected, the wait loop ends with the frame written. -/
lemma sendLoop_sent_of (tr : List Obs) :
    tr.all (fun o => !o.stop) = true →
      tr.any (fun o => o.connected) = true →
      sendLoop tr = SendOutcome.sent := by
  induction tr with
  | nil => intro _ h; simp at h
  | cons o rest ih =>
    intro hall hany
    simp only [List.all_cons, Bool.and_eq_true] at hall
    simp only [List.any_cons, Bool.or_eq_true] at hany
    by_cases hc : o.connected = true
    · simp [sendLoop, hc]
    · simp only [Bool.not_eq_true] at hc
      have hs : o.stop = false := by
        cases h2 : o.stop
        · rfl
        · rw [h2] at hall; simp at hall
      rcases hany with hany | hany
      · rw [hc] at hany; cases hany
      · simp [sendLoop, hc, hs, ih hall.2 hany]

/-- Helper: the wait loop writes the frame only if some observation shows
the transport connected. -/
lemma sendLoop_sent_imp (tr : List Obs) :
    sendLoop tr = SendOutcome.sent →
      tr.any (fun o => o.connected) = true := by
  induction tr with
  | nil => intro h; simp [sendLoop] at h
  | cons o rest ih =>
    intro h
    simp only [sendLoop] at h
    by_cases hc : o.connected = true
    · simp [List.any_cons, hc]
    · simp only [Bool.not_eq_true] at hc
      rw [hc] at h
      simp only [Bool.false_eq_true, if_false] at h
      by_cases hs : o.stop = true
      · rw [hs] at h; simp at h
      · simp only [Bool.not_eq_true] at hs
        rw [hs] at h
        simp only [Bool.false_eq_true, if_false] at h
        simp [List.any_cons, ih h]

/-- Helper: a trace on which the wait loop is still waiting showed the
transport disconnected and the stop flag clear at every observation. -/
lemma sendLoop_exhausted_imp (tr : List Obs) :
    sendLoop tr = SendOutcome.exhausted →
      tr.all (fun o => !o.connected && !o.stop) = true := by
  induction tr with
  | nil => intro _; rfl
  | cons o rest ih =>
    intro h
    simp only [sendLoop] at h
    by_cases hc : o.connected = true
    · rw [if_pos hc] at h; cases h
    · simp only [Bool.not_eq_true] at hc
      rw [hc] at h
      simp only [Bool.false_eq_true, if_false] at h
      by_cases hs : o.stop = true
      · rw [if_pos hs] at h; cases h
      · simp only [Bool.not_eq_true] at hs
        rw [hs] at h
        simp only [Bool.false_eq_true, if_false] at h
        simp [List.all_cons, hc, hs, ih h]

/-- Claim C6 counterexample: a well-formed message is passed to `send`
while the first observation shows the channel disconnected and not
stopped; when the stop flag is then observed, `send` takes the early
`return` and finishes normally without ever writing the frame — the
message is silently dropped. -/
theorem c6_counterexample :
    send (Json.obj [("jsonrpc", Json.str "2.0")])
      [⟨false, false⟩, ⟨false, true⟩] = SendOutcome.droppedOnStop
    ∧ valid_send_arg (Json.obj [("jsonrpc", Json.str "2.0")]) = true
    ∧ decide (SendOutcome.droppedOnStop = SendOutcome.sent) = false :=
  ⟨rfl, rfl, rfl⟩

/-- Claim C6 (corrected): a `send` of a well-formed message while
disconnected blocks, polling the connection state, and returns with the
frame written once a connected state is observed — unless the stop flag
is observed during the wait, in which case `send` returns normally
without writing the frame (the one path on which the message is
dropped).  Dropping requires a stop observation; writing requires a
connected observation; and a trace on which `send` is still waiting is
one that never showed the channel connected or stopped. -/
theorem c6_amended (m : Json) (tr : List Obs)
    (hm : valid_send_arg m = true) :
    (send m tr = SendOutcome.droppedOnStop →
      tr.any (fun o => o.stop) = true)
    ∧ (tr.all (fun o => !o.stop) = true →
        tr.any (fun o => o.connected) = true →
        send m tr = SendOutcome.sent)
    ∧ (send m tr = SendOutcome.sent →
        tr.any (fun o => o.connected) = true)
    ∧ (send m tr = SendOutcome.exhausted →
        tr.all (fun o => !o.connected && !o.stop) = true) := by
  have hsend : send m tr = sendLoop tr := by simp [send, hm]
  rw [hsend]
  exact ⟨sendLoop_dropped_imp tr, sendLoop_sent_of tr,
    sendLoop_sent_imp tr, sendLoop_exhausted_imp tr⟩

/-- Claim C6 witness: on a trace that is disconnected once and then
connected, with the stop flag never set, `send` writes the frame. -/
theorem c6_witness :
    send (Json.obj [("jsonrpc", Json.str "2.0")])
      [⟨false, false⟩, ⟨true, false⟩] = SendOutcome.sent :=
  (c6_amended (Json.obj [("jsonrpc", Json.str "2.0")])
    [⟨false, false⟩, ⟨true, false⟩] rfl).2.1 rfl rfl

/-- Helper: the frame loop of `listen` delivers the frames before the
first failing one, delivers the failing frame itself (the handler raised
while processing it), and then aborts the iteration with the exception
escaping the loop body. -/
lemma listenLoop_until_failure (h : String → HandlerRes)
    (pre : List String) (f : String) (post : List String)
    (hpre : ∀ g, g ∈ pre → h g = HandlerRes.ok)
    (hf : h f = HandlerRes.exc) :
    listenLoop (some h) (pre ++ f :: post) = (pre ++ [f], true) := by
  induction pre with
  | nil => simp [listenLoop, hf]
  | cons g rest ih =>
    have hg : h g = HandlerRes.ok := hpre g (List.mem_cons_self g rest)
    have ih2 := ih (fun g2 hg2 => hpre g2 (List.mem_cons_of_mem g hg2))
    simp only [List.cons_append, listenLoop, hg, List.append_eq, ih2]

/-- Claim C5 counterexample: with a handler that raises on the frame
"bad", `listen` on the inbound frames ["bad", "good"] delivers only
"bad": the exception is caught by the `except Exception` clause wrapping
the whole `async for`, so the loop is abandoned and the subsequent frame
"good" of the same session is never delivered to the handler.  This
refutes "the receive loop continues to deliver subsequent inbound frames
of the same session". -/
theorem c5_counterexample :
    WSClient.listen (some (fun f => if f = "bad" then HandlerRes.exc
      else HandlerRes.ok)) ["bad", "good"] =
      (["bad"], ListenExit.caughtException) :=
  rfl

/-- Claim C5 (corrected): an exception raised by the caller-supplied
handler is caught and logged at the boundary of `listen` (so it never
propagates out of the receive loop and never crashes the session task),
but it is not isolated per message: it terminates that invocation of the
receive loop, and the frames after the first failing one are not
delivered. -/
theorem c5_amended (h : String → HandlerRes) (pre : List String)
    (f : String) (post : List String)
    (hpre : ∀ g, g ∈ pre → h g = HandlerRes.ok)
    (hf : h f = HandlerRes.exc) :
    WSClient.listen (some h) (pre ++ f :: post) =
      (pre ++ [f], ListenExit.caughtException) := by
  simp [WSClient.listen, listenLoop_until_failure h pre f post hpre hf]

/-- Claim C5 witness: a handler that always raises receives the first
frame only, and `listen` still returns (exception caught). -/
theorem c5_witness :
    WSClient.listen (some (fun _ => HandlerRes.exc)) ["b", "c"] =
      (["b"], ListenExit.caughtException) :=
  c5_amended (fun _ => HandlerRes.exc) [] "b" ["c"]
    (fun g hg => absurd hg (List.not_mem_nil g)) rfl

/-- Helper: a message passing `check_notification` carries no `id`
field. -/
lemma check_notification_no_id (n : Json)
    (hn : check_notification n = true) : getField n "id" = none := by
  simp only [check_notification, Bool.and_eq_true] at hn
  obtain ⟨⟨⟨⟨hd, hj⟩, hm⟩, hid⟩, hp⟩ := hn
  exact Option.isNone_iff_eq_none.mp hid

/-- Helper: a message passing `check_notification` is classified
`TYPE_NOTIFICATION` by `get_message_type`: the request and response
shapes both demand an `id` field, which a notification lacks. -/
lemma get_message_type_of_notification (n : Json)
    (hn : check_notification n = true) :
    get_message_type n = GetTypeResult.TYPE_NOTIFICATION := by
  have hn2 := hn
  simp only [check_notification, Bool.and_eq_true] at hn2
  obtain ⟨⟨⟨⟨hd, hj⟩, hm⟩, hid⟩, hp⟩ := hn2
  have hidnone : getField n "id" = none := Option.isNone_iff_eq_none.mp hid
  have hidok : idOk n = false := by simp [idOk, hidnone]
  have hreq : check_request n = false := by simp [check_request, hidok]
  have hresp : check_response n = false := by simp [check_response, hidok]
  simp [get_message_type, hd, hj, hreq, hresp, hn]

/-- Claim C8 (confirmed): every message satisfying the notification shape
check — in particular every `make_notification` value built from a string
method and dict/list-or-absent params, with the `params` key omitted
entirely when absent — is classified `TYPE_NOTIFICATION`, carries no `id`
field, and survives the round trip `parse_message (dumps n)` unchanged
(same field set, same values, still no `id`), given that the external
`json.loads` decodes the serializer's output back to the same value. -/
theorem c8_notification_roundtrip :
    (∀ n, check_notification n = true →
      get_message_type n = GetTypeResult.TYPE_NOTIFICATION
      ∧ getField n "id" = none
      ∧ ∀ loads, loads ((dumps n).trim) = some n →
          parse_message loads (PyVal.pstr (dumps n)) = ParseResult.ok n)
    ∧ (∀ method params, (∀ p, params = some p → isParamsType p = true) →
        check_notification (make_notification method params) = true) := by
  constructor
  · intro n hn
    refine ⟨get_message_type_of_notification n hn,
      check_notification_no_id n hn, ?_⟩
    intro loads hl
    have hn2 := hn
    simp only [check_notification, Bool.and_eq_true] at hn2
    obtain ⟨⟨⟨⟨hd, hj⟩, hm⟩, hid⟩, hp⟩ := hn2
    cases n with
    | obj fs =>
      have hsome : (jlookup fs "jsonrpc").isSome = true := by
        cases hjl : jlookup fs "jsonrpc" with
        | none => simp [jsonrpcOk, getField, hjl] at hj
        | some v => simp
      simp [parse_message, hl, containsJsonrpc, hsome]
    | null => simp [isDict] at hd
    | bool b => simp [isDict] at hd
    | num k => simp [isDict] at hd
    | str s => simp [isDict] at hd
    | arr xs => simp [isDict] at hd
  · intro method params hpv
    cases params with
    | none => rfl
    | some p =>
      have hp := hpv p rfl
      simp [make_notification, check_notification, isDict, jsonrpcOk,
        getField, jlookup, methodOk, hp]

/-- Claim C8 witness: the built notification for method "ping" with no
params passes `check_notification`, is classified `TYPE_NOTIFICATION`,
and round-trips through `dumps`/`parse_message` to the identical dict
with no `id` key. -/
theorem c8_witness :
    check_notification (make_notification "ping" none) = true
    ∧ parse_message
        (fun _ => some (Json.obj [("jsonrpc", Json.str "2.0"),
          ("method", Json.str "ping")]))
        (PyVal.pstr (dumps (Json.obj [("jsonrpc", Json.str "2.0"),
          ("method", Json.str "ping")]))) =
      ParseResult.ok (Json.obj [("jsonrpc", Json.str "2.0"),
        ("method", Json.str "ping")])
    ∧ getField (Json.obj [("jsonrpc", Json.str "2.0"),
        ("method", Json.str "ping")]) "id" = none :=
  ⟨c8_notification_roundtrip.2 "ping" none
      (fun _p hp => Option.noConfusion hp),
   (c8_notification_roundtrip.1
      (Json.obj [("jsonrpc", Json.str "2.0"), ("method", Json.str "ping")])
      rfl).2.2 _ rfl,
   (c8_notification_roundtrip.1
      (Json.obj [("jsonrpc", Json.str "2.0"), ("method", Json.str "ping")])
      rfl).2.1⟩

end ClaimTheorems
